import Mathlib

/-!
# Interestify core — shallow embedding and verification

This file embeds the core analysis pipeline of the Interestify repository
in Lean 4 and proves properties of it:

* the data model (`src/models/schemas.py`),
* the TTL cache (`src/core/cache/manager.py`),
* pagination (`src/utils/pagination.py`),
* the data-source toolkit: bot detection and text normalization
  (`src/core/datasources/base.py`),
* the source registry (`src/core/datasources/manager.py`),
* the sentiment strategy layer (`src/core/sentiment/`),
* the orchestration endpoint `analyze_posts` (`src/main.py`,
  mirrored by `src/services/analysis_service.py`).

Python floats that carry scores and thresholds are modelled as exact
rationals; timestamps are modelled as integers ordered like the clock
values the code compares.  Python exceptions are modelled with `Except`;
`None` with `Option`.
-/

namespace Interestify

/-! ## Data model (src/models/schemas.py) -/

/-- `SentimentType` enumeration. -/
inductive SentimentType where
  | positive
  | negative
  | neutral
deriving DecidableEq

/-- `EngagementStats` model: per-post engagement counters. -/
structure EngagementStats where
  likes : Nat := 0
  shares : Nat := 0
  comments : Nat := 0
  views : Nat := 0
  replies : Nat := 0
deriving DecidableEq

/-- `Post` model.  The timestamp is an abstract integer clock value. -/
structure Post where
  id : String
  text : String
  timestamp : Int
  author : String
  author_id : String
  location : Option String := none
  engagement_stats : EngagementStats
  source : String
  confidence_score : ℚ
  language : Option String := some "en"
  hashtags : List String := []
  mentions : List String := []
  urls : List String := []
deriving DecidableEq

/-- `SentimentResult` model: the per-post sentiment score. -/
structure SentimentResult where
  post_id : String
  sentiment : SentimentType
  confidence : ℚ
  polarity : ℚ
  subjectivity : ℚ
  analyzer_used : String
  created_at : Int
deriving DecidableEq

/-- `SearchQuery` model: the request object and cache-fingerprint source. -/
structure SearchQuery where
  query : String
  data_sources : List String := []
  limit : Int := 50
  offset : Int := 0
  start_date : Option Int := none
  end_date : Option Int := none
  include_sentiment : Bool := true
  min_confidence : ℚ := 1/2
  language : Option String := some "en"
deriving DecidableEq

/-- `DataSourceConfig` model: per-provider configuration. -/
structure DataSourceConfig where
  name : String
  enabled : Bool := true
  api_key : Option String := none
  api_secret : Option String := none
  rate_limit : Int := 100
  timeout : Int := 30
  cache_ttl : Int := 3600
  bot_detection_threshold : ℚ := 8/10
deriving DecidableEq

/-- Sentiment distribution: the counts per category held in
`AnalysisResult.sentiment_distribution` (a dict keyed by the three
`SentimentType` values in the code). -/
structure SentimentDistribution where
  positive : Nat := 0
  negative : Nat := 0
  neutral : Nat := 0
deriving DecidableEq

/-- `AnalysisResult` model: the unit returned by `analyze_posts`,
stored in the cache and handed to persistence. -/
structure AnalysisResult where
  query : String
  total_posts : Nat
  sentiment_distribution : SentimentDistribution
  average_confidence : ℚ
  sources_used : List String
  posts : List Post
  sentiment_results : List SentimentResult
  created_at : Int
  processing_time : ℚ
deriving DecidableEq

/-! ## Pagination (src/utils/pagination.py, `paginate_results`) -/

/-- `paginate_results(items, offset, limit)`: clamps a negative offset to 0,
replaces a non-positive limit by the default 50, then returns the Python
slice `items[offset : offset + limit]`. -/
def paginate_results {α : Type} (items : List α) (offset : Int := 0)
    (limit : Int := 50) : List α :=
  let offset₁ : Int := if offset < 0 then 0 else offset
  let limit₁ : Int := if limit ≤ 0 then 50 else limit
  (items.drop offset₁.toNat).take limit₁.toNat

/-! ## Cache key derivation (src/core/cache/manager.py, `_generate_key`)

`_generate_key` serialises a dict of query fields with `json.dumps(...,
sort_keys=True)` and hashes it with MD5.  The serialised dict determines
the digest, and two dicts that are field-wise equal serialise identically,
so up to MD5 collisions the key is exactly the tuple of serialised fields.
We model the key as that tuple. -/

/-- The canonical fingerprint extracted from a query by `_generate_key`:
the fields of the serialised dict, with the provider list sorted.
Note the dict built by the code has no `offset` entry. -/
structure QueryKey where
  query : String
  data_sources : List String
  limit : Int
  start_date : Option Int
  end_date : Option Int
  include_sentiment : Bool
  min_confidence : ℚ
  language : Option String
deriving DecidableEq

/-- `CacheManager._generate_key`: build the canonical fingerprint,
sorting the provider-name list (`sorted(query.data_sources)`). -/
def generate_key (q : SearchQuery) : QueryKey :=
  { query := q.query
    data_sources := List.insertionSort (· ≤ ·) q.data_sources
    limit := q.limit
    start_date := q.start_date
    end_date := q.end_date
    include_sentiment := q.include_sentiment
    min_confidence := q.min_confidence
    language := q.language }

/-! ## The data-source toolkit (src/core/datasources/base.py) -/

/-- The fixed list of spam/clickbait marker phrases
(`generic_phrases` in `DataSource.detect_bot`). -/
def generic_phrases : List String :=
  ["click here", "follow me", "check out", "amazing deal",
   "limited time", "act now", "free money", "get rich"]

/-- Whether `pat` occurs at the head of `text`. -/
def leadsWith : List Char → List Char → Bool
  | [], _ => true
  | _ :: _, [] => false
  | a :: as, b :: bs => a = b && leadsWith as bs

/-- Whether `pat` occurs as a contiguous run anywhere in `text`. -/
def occursIn (pat : List Char) : List Char → Bool
  | [] => pat.isEmpty
  | c :: cs => leadsWith pat (c :: cs) || occursIn pat cs

/-- Python `phrase in text`: substring containment. -/
def contains_sub (text phrase : String) : Bool :=
  occursIn phrase.toList text.toList

/-- Python `text.count("#")`: the number of `#` characters in `text`. -/
def count_hash (text : String) : Nat :=
  (text.toList.filter (fun c => c = '#')).length

/-- Python `str.lower()` on one character (ASCII range, which covers the
marker phrases and the texts compared against them). -/
def py_lower_char (c : Char) : Char :=
  if 65 ≤ c.toNat ∧ c.toNat ≤ 90 then Char.ofNat (c.toNat + 32) else c

/-- Python `text.lower()`. -/
def py_lower (s : String) : String := String.mk (s.toList.map py_lower_char)

/-- `DataSource.detect_bot`: start from confidence 1.0, subtract the
penalties in the order the code applies them, then clamp to [0, 1].
Note the hashtag penalty tests `post.text.count("#") > 5`, the number of
`#` characters in the text, not the length of `post.hashtags`. -/
def detect_bot (post : Post) : ℚ :=
  let confidence₀ : ℚ := 1
  let confidence₁ :=
    if post.engagement_stats.likes > 10000 ∧ post.text.length < 50 then
      confidence₀ - 3/10 else confidence₀
  let confidence₂ :=
    if count_hash post.text > 5 then confidence₁ - 2/10 else confidence₁
  let confidence₃ :=
    if post.mentions.length > 3 then confidence₂ - 2/10 else confidence₂
  let text_lower := py_lower post.text
  let confidence₄ := generic_phrases.foldl
    (fun c phrase => if contains_sub text_lower phrase then c - 1/10 else c)
    confidence₃
  max 0 (min 1 confidence₄)

/-- `DataSource.filter_posts`: write the bot confidence back onto each
post and keep the posts at or above the threshold, preserving order. -/
def filter_posts (posts : List Post) (min_confidence : ℚ := 1/2) : List Post :=
  ((posts.map fun post => { post with confidence_score := detect_bot post }).filter
    fun post => post.confidence_score ≥ min_confidence)

/-! ## Text normalization (src/core/datasources/base.py, `_normalize_text`)

`_normalize_text` runs, in this order:
1. `" ".join(text.split())` — collapse whitespace runs (Python `split()`
   with no argument splits on any whitespace and drops empty pieces);
2. `.replace("\x00", "").replace("\r", " ").replace("\n", " ")`;
3. `.strip()`.
-/

/-- The characters Python `str.split()` and `str.strip()` treat as
whitespace (the ASCII ones; the inputs of interest are ASCII). -/
def py_space (c : Char) : Bool :=
  c = ' ' ∨ c = '\t' ∨ c = '\n' ∨ c = '\r' ∨ c = '\x0b' ∨ c = '\x0c'

/-- Helper for `py_split`: `acc` holds the current word, reversed. -/
def py_split_aux : List Char → List Char → List (List Char)
  | [], acc => if acc.isEmpty then [] else [acc.reverse]
  | c :: cs, acc =>
    if py_space c then
      if acc.isEmpty then py_split_aux cs []
      else acc.reverse :: py_split_aux cs []
    else py_split_aux cs (c :: acc)

/-- Python `text.split()` on a character list: the maximal runs of
non-whitespace characters, in order, empty runs dropped. -/
def py_split (cs : List Char) : List (List Char) :=
  py_split_aux cs []

/-- `" ".join(words)` on character lists. -/
def join_space : List (List Char) → List Char
  | [] => []
  | [w] => w
  | w :: ws => w ++ ' ' :: join_space ws

/-- Python `.strip()` on a character list. -/
def py_strip (cs : List Char) : List Char :=
  ((cs.dropWhile py_space).reverse.dropWhile py_space).reverse

/-- The character map of `.replace("\r", " ").replace("\n", " ")`. -/
def crnl (c : Char) : Char :=
  if c = '\r' ∨ c = '\n' then ' ' else c

/-- `DataSource._normalize_text`, faithful to the code order: collapse
whitespace first, then remove nulls and replace CR/LF, then strip. -/
def normalize_text (text : String) : String :=
  let collapsed := join_space (py_split text.toList)
  let no_null := collapsed.filter (fun c => c ≠ '\x00')
  let replaced := no_null.map crnl
  String.mk (py_strip replaced)

/-- Text normalization as claim C7 words it: first replace CR and LF with
spaces and strip null characters, then collapse whitespace runs and trim. -/
def normalize_text_claimed (text : String) : String :=
  let replaced := text.toList.map crnl
  let no_null := replaced.filter (fun c => c ≠ '\x00')
  String.mk (py_strip (join_space (py_split no_null)))

/-! ## Sentiment analysis (src/core/sentiment/) -/

/-- The dict returned by `SentimentAnalyzer.analyze`. -/
structure SentimentOutput where
  sentiment : SentimentType
  confidence : ℚ
  polarity : ℚ
  subjectivity : ℚ
deriving DecidableEq

/-- A sentiment analyzer backend: its reported name and its per-text
`analyze`, which may raise (the underlying TextBlob / VADER scorers are
external libraries, so the behaviour is abstract here). -/
structure Analyzer where
  name : String
  analyze : String → Except String SentimentOutput

/-- The neutral fallback dict substituted for a failing text in
`analyze_batch`. -/
def fallback_output : SentimentOutput :=
  { sentiment := .neutral, confidence := 0, polarity := 0, subjectivity := 0 }

/-- `SentimentAnalyzer.analyze_batch`: analyze each text, substituting
the neutral fallback when `analyze` raises; order and length preserved. -/
def analyze_batch (a : Analyzer) (texts : List String) : List SentimentOutput :=
  texts.map fun t =>
    match a.analyze t with
    | .ok r => r
    | .error _ => fallback_output

/-- `SentimentAnalyzer.process_posts`: batch all texts, then zip the
results back onto the posts, stamping the analyzer name and the post's
timestamp. -/
def process_posts (a : Analyzer) (posts : List Post) : List SentimentResult :=
  (posts.zip (analyze_batch a (posts.map Post.text))).map fun pr =>
    { post_id := pr.1.id
      sentiment := pr.2.sentiment
      confidence := pr.2.confidence
      polarity := pr.2.polarity
      subjectivity := pr.2.subjectivity
      analyzer_used := a.name
      created_at := pr.1.timestamp }

/-- `SentimentAnalyzerFactory.create_analyzer`: resolve a registered
analyzer by name (the registry maps `"textblob"` and `"vader"` to the two
backends, plus anything added by `register_analyzer`); raise `ValueError`
for an unknown name. -/
def create_analyzer (analyzers : List (String × Analyzer))
    (name : String := "textblob") : Except String Analyzer :=
  match analyzers.lookup name with
  | some a => .ok a
  | none => .error ("Unknown analyzer: " ++ name)

/-! ## Fan-out and orchestration (src/main.py `analyze_posts`,
mirrored by `AnalysisService.analyze_posts`) -/

/-- A configured data-source instance as the orchestrator sees it:
its name, its enabled flag, and its `search_posts`, which may raise. -/
structure Source where
  name : String
  enabled : Bool
  search : SearchQuery → Except String (List Post)

/-- The fan-out loop of `analyze_posts`: iterate the candidate sources in
order; a source that raises is skipped (logged in the code), the others
contribute their posts to `all_posts` and their name to `sources_used`. -/
def fan_out (sources : List Source) (query : SearchQuery) :
    List Post × List String :=
  match sources with
  | [] => ([], [])
  | s :: rest =>
    let tail := fan_out rest query
    match s.search query with
    | .ok posts => (posts ++ tail.1, s.name :: tail.2)
    | .error _ => tail

/-- The sentiment-distribution dict of `analyze_posts`: count each
category across the produced scores. -/
def count_distribution (results : List SentimentResult) : SentimentDistribution :=
  results.foldl
    (fun d r =>
      match r.sentiment with
      | .positive => { d with positive := d.positive + 1 }
      | .negative => { d with negative := d.negative + 1 }
      | .neutral => { d with neutral := d.neutral + 1 })
    {}

/-- `analyze_posts` (src/main.py lines 97–175), the path past the cache
lookup: resolve enabled sources (503 when none), intersect with the
query's requested providers when that list is non-empty, fan out, paginate,
run sentiment when requested (any sentiment-stage exception — including an
unknown analyzer name from the factory — is caught and leaves the
sentiment results empty), aggregate, and return the assembled result.
`analyzers` is the factory's registry; `now` stamps `created_at`;
wall-clock `processing_time` is not modelled and recorded as 0. -/
def analyze_posts (analyzers : List (String × Analyzer))
    (sources : List Source) (query : SearchQuery)
    (analyzer_name : String := "textblob") (now : Int := 0) :
    Except String AnalysisResult :=
  let enabled_sources := sources.filter (fun s => s.enabled)
  if enabled_sources.isEmpty then
    .error "No data sources available"
  else
    let sources_to_use :=
      if query.data_sources.isEmpty then enabled_sources
      else enabled_sources.filter (fun s => query.data_sources.contains s.name)
    let fanned := fan_out sources_to_use query
    let all_posts := fanned.1
    let sources_used := fanned.2
    let paginated_posts := paginate_results all_posts query.offset query.limit
    let sentiment_results :=
      if query.include_sentiment then
        match create_analyzer analyzers analyzer_name with
        | .ok analyzer => process_posts analyzer paginated_posts
        | .error _ => []
      else []
    let sentiment_distribution := count_distribution sentiment_results
    let average_confidence : ℚ :=
      if sentiment_results.isEmpty then 0
      else (sentiment_results.map SentimentResult.confidence).sum /
        (sentiment_results.length : ℚ)
    .ok
      { query := query.query
        total_posts := all_posts.length
        sentiment_distribution := sentiment_distribution
        average_confidence := average_confidence
        sources_used := sources_used
        posts := paginated_posts
        sentiment_results := sentiment_results
        created_at := now
        processing_time := 0 }

/-! ## Association-list plumbing shared by the stateful models

Python dicts keyed by strings / cache keys are modelled as association
lists whose keys are unique; insertion overwrites in place, deletion
removes the key. -/

/-- Dict lookup. -/
def assoc_get {κ ν : Type} [DecidableEq κ] (m : List (κ × ν)) (k : κ) :
    Option ν :=
  match m with
  | [] => none
  | kv :: rest => if kv.1 = k then some kv.2 else assoc_get rest k

/-- Dict store `m[k] = v`: overwrite in place, else append. -/
def assoc_set {κ ν : Type} [DecidableEq κ] (m : List (κ × ν)) (k : κ)
    (v : ν) : List (κ × ν) :=
  match m with
  | [] => [(k, v)]
  | kv :: rest =>
    if kv.1 = k then (k, v) :: rest else kv :: assoc_set rest k v

/-- Dict delete `del m[k]`. -/
def assoc_del {κ ν : Type} [DecidableEq κ] (m : List (κ × ν)) (k : κ) :
    List (κ × ν) :=
  m.filter (fun kv => kv.1 ≠ k)

/-! ## Cache manager (src/core/cache/manager.py) -/

/-- A stored cache entry. -/
structure CacheEntry where
  data : AnalysisResult
  created_at : Int
  expires_at : Int
  hit_count : Nat
  last_accessed : Int
deriving DecidableEq

/-- The `CacheManager` state: the entry dict and the default TTL. -/
structure CacheState where
  cache : List (QueryKey × CacheEntry) := []
  default_ttl : Int := 3600
deriving DecidableEq

/-- `CacheManager.get`: look the key up; a present entry whose expiry has
not passed is returned with its hit counter bumped and last-access time
refreshed; a present expired entry is evicted and treated as absent. -/
def cache_get (st : CacheState) (now : Int) (q : SearchQuery) :
    Option AnalysisResult × CacheState :=
  let key := generate_key q
  match assoc_get st.cache key with
  | some entry =>
    if now < entry.expires_at then
      let entry₁ :=
        { entry with hit_count := entry.hit_count + 1, last_accessed := now }
      (some entry.data, { st with cache := assoc_set st.cache key entry₁ })
    else
      (none, { st with cache := assoc_del st.cache key })
  | none => (none, st)

/-- `ttl = ttl or self.default_ttl` in `CacheManager.set`: both a missing
TTL and an explicit falsy TTL of 0 fall back to the default. -/
def effective_ttl (default_ttl : Int) (ttl : Option Int) : Int :=
  match ttl with
  | none => default_ttl
  | some t => if t = 0 then default_ttl else t

/-- `CacheManager.set`: store the entry under the query's key with expiry
`now + ttl`, the TTL passed through Python's falsy-`or` defaulting. -/
def cache_set (st : CacheState) (now : Int) (q : SearchQuery)
    (result : AnalysisResult) (ttl : Option Int := none) : CacheState :=
  let key := generate_key q
  let ttl₁ : Int := effective_ttl st.default_ttl ttl
  let entry : CacheEntry :=
    { data := result
      created_at := now
      expires_at := now + ttl₁
      hit_count := 0
      last_accessed := now }
  { st with cache := assoc_set st.cache key entry }

/-! ## Source registry (src/core/datasources/manager.py)

For the registry claims only the configuration layer matters: the live
instance behind a configured name never influences the invariant, and an
instance's `is_available()` is a pure function of its config, modelled by
the predicate `avail` passed to `add`/`update`.  Plugin loading registers
additional type names at construction. -/

/-- The `DataSourceManager` state: configured instances (name ↦ config of
the live instance) and the available provider-type names. -/
structure ManagerState where
  data_sources : List (String × DataSourceConfig) := []
  available_sources : List String := []
deriving DecidableEq

/-- `DataSourceManager.__init__`: twitter and reddit are built in;
`load_plugins` then registers a type per discovered plugin module. -/
def initial_manager (plugin_types : List String) : ManagerState :=
  plugin_types.foldl
    (fun st name =>
      { st with available_sources :=
          if st.available_sources.contains name then st.available_sources
          else st.available_sources ++ [name] })
    { data_sources := [], available_sources := ["twitter", "reddit"] }

/-- `DataSourceManager.register_data_source`: add (or overwrite) an
available type name. -/
def register_data_source (st : ManagerState) (name : String) : ManagerState :=
  { st with available_sources :=
      if st.available_sources.contains name then st.available_sources
      else st.available_sources ++ [name] }

/-- `DataSourceManager.add_data_source`: succeeds only when `config.name`
is an available type name and the constructed instance reports itself
available; on success the instance is stored under `config.name`. -/
def add_data_source (avail : String → DataSourceConfig → Bool)
    (st : ManagerState) (config : DataSourceConfig) : ManagerState × Bool :=
  if st.available_sources.contains config.name then
    if avail config.name config then
      ({ st with data_sources := assoc_set st.data_sources config.name config },
        true)
    else (st, false)
  else (st, false)

/-- `DataSourceManager.remove_data_source`: best-effort close (failures
swallowed, not modelled) and delete; reports whether the name existed. -/
def remove_data_source (st : ManagerState) (name : String) :
    ManagerState × Bool :=
  if (assoc_get st.data_sources name).isSome then
    ({ st with data_sources := assoc_del st.data_sources name }, true)
  else (st, false)

/-- `DataSourceManager.update_source_config`: when the name is configured,
remove it and re-add with the new config (no rollback when the add
fails). -/
def update_source_config (avail : String → DataSourceConfig → Bool)
    (st : ManagerState) (name : String) (config : DataSourceConfig) :
    ManagerState × Bool :=
  if (assoc_get st.data_sources name).isSome then
    add_data_source avail (remove_data_source st name).1 config
  else (st, false)

/-- One management operation on the registry, as exposed by the service
layer: dynamic type registration, add, remove, or update. -/
inductive ManagerStep : ManagerState → ManagerState → Prop
  | register (st : ManagerState) (name : String) :
      ManagerStep st (register_data_source st name)
  | add (avail : String → DataSourceConfig → Bool) (st : ManagerState)
      (config : DataSourceConfig) :
      ManagerStep st (add_data_source avail st config).1
  | remove (st : ManagerState) (name : String) :
      ManagerStep st (remove_data_source st name).1
  | update (avail : String → DataSourceConfig → Bool) (st : ManagerState)
      (name : String) (config : DataSourceConfig) :
      ManagerStep st (update_source_config avail st name config).1

/-- Registry states reachable from construction by any sequence of
management operations. -/
inductive ManagerReachable : ManagerState → Prop
  | init (plugin_types : List String) :
      ManagerReachable (initial_manager plugin_types)
  | step {st st' : ManagerState} :
      ManagerReachable st → ManagerStep st st' → ManagerReachable st'

/-- The registry invariant of claim C10: every configured-instance name is
an available type name, and the configured names are pairwise distinct
(at most one instance per name). -/
def manager_inv (st : ManagerState) : Prop :=
  (∀ kv ∈ st.data_sources, kv.1 ∈ st.available_sources) ∧
    (st.data_sources.map Prod.fst).Nodup

/-! # Theorems -/

/-! ## C9 — pagination -/

/-- C9: `paginate_results` is total and defensive: a negative offset is
treated as offset 0, a non-positive limit is replaced by the default 50
(neither raises), otherwise the result is exactly the Python slice
`items[offset : offset + limit]` — and it is empty whenever the offset is
at or past the end of the list. -/
theorem C9_paginate_results_defensive {α : Type} (items : List α)
    (offset limit : Int) :
    (offset < 0 →
      paginate_results items offset limit = paginate_results items 0 limit) ∧
    (limit ≤ 0 →
      paginate_results items offset limit = paginate_results items offset 50) ∧
    (0 ≤ offset → 0 < limit →
      paginate_results items offset limit =
        (items.drop offset.toNat).take limit.toNat) ∧
    ((items.length : Int) ≤ offset →
      paginate_results items offset limit = []) := by
  refine ⟨?_, ?_, ?_, ?_⟩
  · intro h
    simp only [paginate_results, if_pos h, if_neg (lt_irrefl (0 : Int))]
  · intro h
    simp only [paginate_results, if_pos h,
      if_neg (by norm_num : ¬ (50 : Int) ≤ 0)]
  · intro h₀ h₁
    simp only [paginate_results, if_neg (not_lt.mpr h₀), if_neg (not_le.mpr h₁)]
  · intro h
    have h₀ : (0 : Int) ≤ offset :=
      le_trans (by positivity) h
    simp only [paginate_results, if_neg (not_lt.mpr h₀)]
    have hlen : items.length ≤ offset.toNat := by
      omega
    rw [List.drop_eq_nil_of_le hlen, List.take_nil]

/-- C9 witness: the defensive clauses evaluated at concrete inputs. -/
theorem C9_paginate_results_defensive_witness :
    ((-1 : Int) < 0 ∧
      paginate_results [10, 20, 30] (-1) 2 = paginate_results [10, 20, 30] 0 2) ∧
    ((0 : Int) ≤ 0 ∧
      paginate_results [10, 20, 30] 1 0 = paginate_results [10, 20, 30] 1 50) ∧
    ((0 : Int) ≤ 1 ∧ (0 : Int) < 2 ∧
      paginate_results [10, 20, 30] 1 2 = (([10, 20, 30].drop 1).take 2 : List Nat)) ∧
    (([10, 20, 30] : List Nat).length ≤ (5 : Int) ∧
      paginate_results [10, 20, 30] 5 2 = ([] : List Nat)) :=
  ⟨⟨by decide, (C9_paginate_results_defensive [10, 20, 30] (-1) 2).1 (by decide)⟩,
   ⟨by decide, (C9_paginate_results_defensive [10, 20, 30] 1 0).2.1 (by decide)⟩,
   ⟨by decide, by decide,
     (C9_paginate_results_defensive [10, 20, 30] 1 2).2.2.1 (by decide) (by decide)⟩,
   ⟨by decide, (C9_paginate_results_defensive [10, 20, 30] 5 2).2.2.2 (by decide)⟩⟩

/-! ## C1 — cache key canonicity

The serialised dict in `_generate_key` has entries for `query`,
`data_sources` (sorted), `limit`, `start_date`, `end_date`,
`include_sentiment`, `min_confidence` and `language` — but none for
`offset`, although `SearchQuery` carries one and `analyze_posts` stores
the *paginated* result under this key.  Two queries that differ only in
`offset` therefore collide on the same cache key, and the second call is
served the first call's page. -/

/-- Page-0 request for the same search as `c1_query_offset50`. -/
def c1_query_offset0 : SearchQuery := { query := "bitcoin", offset := 0 }

/-- Page-50 request for the same search as `c1_query_offset0`. -/
def c1_query_offset50 : SearchQuery := { query := "bitcoin", offset := 50 }

/-- C1: the cache key function is NOT injective on the `offset` field:
the two distinct queries that differ exactly in `offset` receive the same
key (not merely a hash collision — the serialised dicts are identical),
contradicting the claim that queries differing in offset get different
keys. -/
theorem C1_generate_key_ignores_offset :
    c1_query_offset0 ≠ c1_query_offset50 ∧
    generate_key c1_query_offset0 = generate_key c1_query_offset50 := by
  constructor
  · intro h
    have : c1_query_offset0.offset = c1_query_offset50.offset := by rw [h]
    simp [c1_query_offset0, c1_query_offset50] at this
  · rfl

/-! ## C2 — "no sources available"

`analyze_posts` raises the 503 "No data sources available" *before*
intersecting the enabled sources with `query.data_sources`: an empty
intersection (enabled set non-empty but none of the requested names
enabled) sails past the check and the call returns a normal result with
empty `sources_used`. -/

/-- An enabled twitter source whose search succeeds with no posts. -/
def c2_source : Source :=
  { name := "twitter", enabled := true, search := fun _ => .ok [] }

/-- A query that restricts to the (unconfigured) provider "reddit". -/
def c2_query : SearchQuery := { query := "q", data_sources := ["reddit"] }

/-- C2 counterexample: with one enabled source named "twitter" and a query
requesting only "reddit", the candidate set (enabled ∩ requested) is
empty, yet the call returns a result — with no sources used and no posts —
instead of failing with "no sources available". -/
theorem C2_empty_intersection_returns_result :
    (analyze_posts [] [c2_source] c2_query "textblob" 0).map
      (fun r => (r.sources_used, r.posts, r.total_posts)) = .ok ([], [], 0) := by
  rfl

/-- C2 (amended): the call fails with "no sources available" exactly when
the registry's *enabled* set is empty; when some source is enabled the
call returns a result even if the intersection with the query's requested
provider names is empty — in that case with empty `sources_used`, no
posts, and total 0. -/
theorem C2_no_sources_error_iff_no_enabled
    (analyzers : List (String × Analyzer)) (sources : List Source)
    (q : SearchQuery) (analyzer_name : String) (now : Int) :
    ((sources.filter fun s => s.enabled).isEmpty = true →
      analyze_posts analyzers sources q analyzer_name now =
        .error "No data sources available") ∧
    ((sources.filter fun s => s.enabled).isEmpty = false →
      (analyze_posts analyzers sources q analyzer_name now).isOk = true) ∧
    ((sources.filter fun s => s.enabled).isEmpty = false →
      q.data_sources.isEmpty = false →
      ((sources.filter fun s => s.enabled).all
        (fun s => ¬ q.data_sources.contains s.name)) = true →
      (analyze_posts analyzers sources q analyzer_name now).map
        (fun r => (r.sources_used, r.posts, r.total_posts)) = .ok ([], [], 0)) := by
  refine ⟨?_, ?_, ?_⟩
  · intro h
    simp only [analyze_posts, h, if_true]
  · intro h
    simp only [analyze_posts, h, Bool.false_eq_true, if_false, Except.isOk,
      Except.toBool]
  · intro h hds hall
    have hfil : (sources.filter fun s => s.enabled).filter
        (fun s => q.data_sources.contains s.name) = [] := by
      rw [List.filter_eq_nil_iff]
      intro s hs
      have := (List.all_eq_true.mp hall) s hs
      simpa using this
    simp only [analyze_posts, h, Bool.false_eq_true, if_false, hds, hfil]
    simp [fan_out, paginate_results, Except.map]

/-- C2 amended, witness: one enabled source named "twitter", a query for
"reddit" only; the call returns a result with empty sources_used. -/
theorem C2_no_sources_error_iff_no_enabled_witness :
    (([c2_source].filter fun s => s.enabled).isEmpty = false ∧
      c2_query.data_sources.isEmpty = false ∧
      (([c2_source].filter fun s => s.enabled).all
        (fun s => ¬ c2_query.data_sources.contains s.name)) = true) ∧
    (analyze_posts [] [c2_source] c2_query "textblob" 0).map
      (fun r => (r.sources_used, r.posts, r.total_posts)) = .ok ([], [], 0) :=
  ⟨⟨by decide, by decide, by decide⟩,
    (C2_no_sources_error_iff_no_enabled [] [c2_source] c2_query "textblob" 0).2.2
      (by decide) (by decide) (by decide)⟩

/-! ## C3 — partial failure in the fan-out -/

/-- C3: with three enabled candidate sources of which exactly the middle
one raises on search, `analyze_posts` returns normally; `sources_used`
lists exactly the two non-failing source names (length 2) and the posts
of both surviving sources are merged, in source order, into the total and
the paginated slice. -/
theorem C3_one_failing_source_excluded
    (analyzers : List (String × Analyzer)) (s₁ s₂ s₃ : Source)
    (q : SearchQuery) (analyzer_name : String) (now : Int)
    (h₁ : s₁.enabled = true) (h₂ : s₂.enabled = true) (h₃ : s₃.enabled = true)
    (hq : q.data_sources = [])
    (p₁ p₃ : List Post) (e : String)
    (hs₁ : s₁.search q = .ok p₁) (hs₂ : s₂.search q = .error e)
    (hs₃ : s₃.search q = .ok p₃) :
    (analyze_posts analyzers [s₁, s₂, s₃] q analyzer_name now).map
        (fun r => (r.sources_used, r.total_posts, r.posts)) =
      .ok ([s₁.name, s₃.name], p₁.length + p₃.length,
        paginate_results (p₁ ++ p₃) q.offset q.limit) ∧
    (analyze_posts analyzers [s₁, s₂, s₃] q analyzer_name now).map
        (fun r => r.sources_used.length) = .ok 2 := by
  have hfil : ([s₁, s₂, s₃].filter fun s => s.enabled) = [s₁, s₂, s₃] := by
    simp [List.filter, h₁, h₂, h₃]
  have hfan : fan_out [s₁, s₂, s₃] q = (p₁ ++ p₃, [s₁.name, s₃.name]) := by
    simp [fan_out, hs₁, hs₂, hs₃]
  constructor
  · simp only [analyze_posts, hfil, hq]
    simp [hfan, Except.map]
  · simp only [analyze_posts, hfil, hq]
    simp [hfan, Except.map]

/-- A minimal post used by concrete orchestration runs. -/
def mk_post (i : String) (src : String) : Post :=
  { id := i
    text := "hello"
    timestamp := 0
    author := "a"
    author_id := "a"
    engagement_stats := {}
    source := src
    confidence_score := 1 }

/-- Concrete source that returns a single post. -/
def ok_source (nm : String) : Source :=
  { name := nm, enabled := true,
    search := fun _ => .ok [mk_post ("p-" ++ nm) nm] }

/-- Concrete source whose search raises. -/
def failing_source (nm : String) : Source :=
  { name := nm, enabled := true, search := fun _ => .error "boom" }

/-- C3 witness: three concrete enabled sources, the middle one raising;
the run returns the two surviving names and their merged posts. -/
theorem C3_one_failing_source_excluded_witness :
    ((ok_source "twitter").enabled = true ∧
      (failing_source "reddit").enabled = true ∧
      (ok_source "dummy").enabled = true ∧
      ({ query := "q" } : SearchQuery).data_sources = [] ∧
      (ok_source "twitter").search { query := "q" } =
        .ok [mk_post "p-twitter" "twitter"] ∧
      (failing_source "reddit").search { query := "q" } = .error "boom" ∧
      (ok_source "dummy").search { query := "q" } =
        .ok [mk_post "p-dummy" "dummy"]) ∧
    (analyze_posts [] [ok_source "twitter", failing_source "reddit",
        ok_source "dummy"] { query := "q" } "textblob" 0).map
        (fun r => (r.sources_used, r.total_posts, r.posts)) =
      .ok ([(ok_source "twitter").name, (ok_source "dummy").name],
        [mk_post "p-twitter" "twitter"].length + [mk_post "p-dummy" "dummy"].length,
        paginate_results ([mk_post "p-twitter" "twitter"] ++ [mk_post "p-dummy" "dummy"])
          ({ query := "q" } : SearchQuery).offset
          ({ query := "q" } : SearchQuery).limit) :=
  ⟨⟨rfl, rfl, rfl, rfl, rfl, rfl, rfl⟩,
    (C3_one_failing_source_excluded [] (ok_source "twitter")
      (failing_source "reddit") (ok_source "dummy") { query := "q" } "textblob" 0
      rfl rfl rfl rfl [mk_post "p-twitter" "twitter"] [mk_post "p-dummy" "dummy"]
      "boom" rfl rfl rfl).1⟩

/-! ## C4 — unknown analyzer name

`SentimentAnalyzerFactory.create_analyzer` does raise `ValueError` for an
unknown name, but `analyze_posts` calls it inside
`try: ... except Exception: pass`, so the analyze call does NOT fail hard:
it returns a degraded result with empty sentiment results.  (Only the
single-text `/analyze-text` endpoint surfaces the error as a 500.) -/

/-- A placeholder registered backend. -/
def c4_analyzer : Analyzer :=
  { name := "TextBlob", analyze := fun _ => .ok fallback_output }

/-- C4 counterexample: sentiment is requested and the analyzer name
"bogus" is not registered — the factory raises — yet the analyze call
returns a result carrying one post and an empty sentiment slice instead
of failing with a configuration error. -/
theorem C4_unknown_analyzer_returns_degraded_result :
    create_analyzer [("textblob", c4_analyzer)] "bogus" =
      .error "Unknown analyzer: bogus" ∧
    ({ query := "q" } : SearchQuery).include_sentiment = true ∧
    (analyze_posts [("textblob", c4_analyzer)] [ok_source "twitter"]
        { query := "q" } "bogus" 0).map
      (fun r => (r.sentiment_results, r.posts.length)) = .ok ([], 1) := by
  refine ⟨rfl, rfl, ?_⟩
  rfl

/-- C4 (amended): the factory raises a configuration error for every
unregistered analyzer name, but `analyze_posts` swallows it: whenever the
name does not resolve, sentiment was requested, and some source is
enabled, the call still returns a result whose sentiment slice is empty. -/
theorem C4_factory_raises_but_analyze_degrades
    (analyzers : List (String × Analyzer)) (analyzer_name : String)
    (h : analyzers.lookup analyzer_name = none)
    (sources : List Source) (q : SearchQuery) (now : Int)
    (hsent : q.include_sentiment = true)
    (hne : (sources.filter fun s => s.enabled).isEmpty = false) :
    create_analyzer analyzers analyzer_name =
      .error ("Unknown analyzer: " ++ analyzer_name) ∧
    (analyze_posts analyzers sources q analyzer_name now).map
      (fun r => r.sentiment_results) = .ok [] := by
  have hca : create_analyzer analyzers analyzer_name =
      .error ("Unknown analyzer: " ++ analyzer_name) := by
    simp only [create_analyzer, h]
  refine ⟨hca, ?_⟩
  simp only [analyze_posts, hne, Bool.false_eq_true, if_false, hsent, hca,
    if_true]
  simp [Except.map]

/-- C4 amended, witness: concrete run with the unregistered name
"bogus". -/
theorem C4_factory_raises_but_analyze_degrades_witness :
    (List.lookup "bogus" [("textblob", c4_analyzer)] = none ∧
      ({ query := "q" } : SearchQuery).include_sentiment = true ∧
      ([ok_source "twitter"].filter fun s => s.enabled).isEmpty = false) ∧
    (create_analyzer [("textblob", c4_analyzer)] "bogus" =
      .error ("Unknown analyzer: " ++ "bogus") ∧
    (analyze_posts [("textblob", c4_analyzer)] [ok_source "twitter"]
        { query := "q" } "bogus" 0).map
      (fun r => r.sentiment_results) = .ok []) :=
  ⟨⟨rfl, rfl, by decide⟩,
    C4_factory_raises_but_analyze_degrades [("textblob", c4_analyzer)] "bogus"
      rfl [ok_source "twitter"] { query := "q" } 0 rfl (by decide)⟩

/-! ## C6 — bot-detection heuristic

`detect_bot` does not look at the post's `hashtags` field: its hashtag
penalty tests `post.text.count("#") > 5`, the number of `#` characters in
the raw text.  A post whose `hashtags` list has more than five entries but
whose text has at most five `#` characters is not penalised. -/

/-- The phrase loop of `detect_bot` subtracts 0.1 once per marker phrase
found, i.e. 0.1 times the number of matching phrases. -/
theorem foldl_phrase_sub (t : String) (l : List String) (c : ℚ) :
    l.foldl (fun c phrase => if contains_sub t phrase then c - 1/10 else c) c =
      c - (1/10) * ((l.filter (fun phrase => contains_sub t phrase)).length : ℚ) := by
  induction l generalizing c with
  | nil => simp
  | cons phrase rest ih =>
    by_cases h : contains_sub t phrase
    · simp only [List.foldl_cons, List.filter_cons, h, if_true, if_pos, ih,
        List.length_cons]
      push_cast
      ring
    · simp only [List.foldl_cons, List.filter_cons, h, Bool.false_eq_true,
        if_false, ih]

/-- The bot-detection score exactly as claim C6 words it: 1.0 minus the
penalties, with the 0.2 hashtag penalty firing when "the post's hashtag
count" — the length of its `hashtags` list — exceeds 5; clamped to [0,1]. -/
def detect_bot_claimed (post : Post) : ℚ :=
  let penalties : ℚ :=
    (if post.engagement_stats.likes > 10000 ∧ post.text.length < 50
      then 3/10 else 0) +
    (if post.hashtags.length > 5 then 2/10 else 0) +
    (if post.mentions.length > 3 then 2/10 else 0) +
    (1/10) * ((generic_phrases.filter
      (fun phrase => contains_sub (py_lower post.text) phrase)).length : ℚ)
  max 0 (min 1 (1 - penalties))

/-- The claim's formula amended in one place: the hashtag penalty fires on
the number of `#` characters in the text (what the code tests), not on the
length of the `hashtags` field. -/
def detect_bot_amended (post : Post) : ℚ :=
  let penalties : ℚ :=
    (if post.engagement_stats.likes > 10000 ∧ post.text.length < 50
      then 3/10 else 0) +
    (if count_hash post.text > 5 then 2/10 else 0) +
    (if post.mentions.length > 3 then 2/10 else 0) +
    (1/10) * ((generic_phrases.filter
      (fun phrase => contains_sub (py_lower post.text) phrase)).length : ℚ)
  max 0 (min 1 (1 - penalties))

/-- A post whose `hashtags` field lists six hashtags while its text has no
`#` character at all. -/
def c6_post : Post :=
  { id := "b1"
    text := "rainy day"
    timestamp := 0
    author := "u"
    author_id := "u"
    engagement_stats := {}
    source := "twitter"
    confidence_score := 1
    hashtags := ["#a", "#b", "#c", "#d", "#e", "#f"] }

/-- C6 counterexample: a post with hashtag count 6 (> 5) but a `#`-free
text scores 1.0 under the code, while the claim's formula — 1.0 minus a
0.2 penalty for the hashtag count — gives 0.8.  The code penalises the
number of `#` characters in the text, not the hashtag count. -/
theorem C6_hashtag_penalty_not_on_hashtag_count :
    c6_post.hashtags.length > 5 ∧
    detect_bot c6_post = 1 ∧
    detect_bot_claimed c6_post = 4/5 := by
  have hfilter : (generic_phrases.filter
      (fun phrase => contains_sub (py_lower c6_post.text) phrase)) = [] := by
    decide
  have h1 : ¬(c6_post.engagement_stats.likes > 10000 ∧
      c6_post.text.length < 50) := by decide
  have h2 : ¬(count_hash c6_post.text > 5) := by decide
  have h3 : ¬(c6_post.mentions.length > 3) := by decide
  have h4 : c6_post.hashtags.length > 5 := by decide
  refine ⟨h4, ?_, ?_⟩
  · simp only [detect_bot, foldl_phrase_sub, hfilter, if_neg h1, if_neg h2,
      if_neg h3]
    norm_num
  · simp only [detect_bot_claimed, hfilter, if_neg h1, if_pos h4, if_neg h3]
    norm_num

/-- C6 (amended): for every post the bot-detection score equals 1.0 minus
the applicable penalties — with the hashtag penalty read off the number of
`#` characters in the text — clamped to [0,1]; in particular a post with
more than 10000 likes and text shorter than 50 characters scores at most
0.7, and a post triggering no penalty scores exactly 1.0. -/
theorem C6_detect_bot_formula (post : Post) :
    detect_bot post = detect_bot_amended post ∧
    (post.engagement_stats.likes > 10000 ∧ post.text.length < 50 →
      detect_bot post ≤ 7/10) ∧
    (¬(post.engagement_stats.likes > 10000 ∧ post.text.length < 50) →
      ¬(count_hash post.text > 5) → ¬(post.mentions.length > 3) →
      (generic_phrases.filter
        (fun phrase => contains_sub (py_lower post.text) phrase)).length = 0 →
      detect_bot post = 1) := by
  have hk : (0 : ℚ) ≤ (1/10) * ((generic_phrases.filter
      (fun phrase => contains_sub (py_lower post.text) phrase)).length : ℚ) := by
    positivity
  refine ⟨?_, ?_, ?_⟩
  · simp only [detect_bot, detect_bot_amended, foldl_phrase_sub]
    split_ifs <;> ring_nf
  · intro h
    simp only [detect_bot, foldl_phrase_sub, if_pos h]
    refine max_le (by norm_num) (le_trans (min_le_right _ _) ?_)
    split_ifs <;> linarith [hk]
  · intro h1 h2 h3 h4
    simp only [detect_bot, foldl_phrase_sub, if_neg h1, if_neg h2, if_neg h3,
      h4]
    norm_num

/-- A short, high-engagement post (likes 20000, text under 50 chars). -/
def c6_spam_post : Post :=
  { id := "s1"
    text := "WOW"
    timestamp := 0
    author := "u"
    author_id := "u"
    engagement_stats := { likes := 20000 }
    source := "twitter"
    confidence_score := 1 }

/-- C6 amended, witness: the high-likes/short-text post is capped at 0.7
and the plain post scores exactly 1. -/
theorem C6_detect_bot_formula_witness :
    ((c6_spam_post.engagement_stats.likes > 10000 ∧
        c6_spam_post.text.length < 50) ∧
      detect_bot c6_spam_post ≤ 7/10) ∧
    ((¬((mk_post "w" "twitter").engagement_stats.likes > 10000 ∧
        (mk_post "w" "twitter").text.length < 50) ∧
      ¬(count_hash (mk_post "w" "twitter").text > 5) ∧
      ¬((mk_post "w" "twitter").mentions.length > 3) ∧
      (generic_phrases.filter (fun phrase =>
        contains_sub (py_lower (mk_post "w" "twitter").text) phrase)).length = 0) ∧
      detect_bot (mk_post "w" "twitter") = 1) :=
  ⟨⟨by decide, (C6_detect_bot_formula c6_spam_post).2.1 (by decide)⟩,
   ⟨⟨by decide, by decide, by decide, by decide⟩,
     (C6_detect_bot_formula (mk_post "w" "twitter")).2.2 (by decide) (by decide)
       (by decide) (by decide)⟩⟩

/-! ## C5 — post / sentiment slice alignment

`process_posts` zips the batch results positionally onto the posts, so
score i carries the id of post i, and the slices have equal length —
*provided* the sentiment stage ran at all.  Two things break the claim as
stated: an analyzer name that fails to resolve leaves the sentiment slice
empty while posts are present (see C4), and nothing deduplicates post ids
across providers, so a score's post id may match several posts. -/

/-- `process_posts` produces exactly one score per post. -/
theorem process_posts_length (a : Analyzer) (posts : List Post) :
    (process_posts a posts).length = posts.length := by
  simp [process_posts, analyze_batch]

/-- The scores of `process_posts` carry, in order, exactly the ids of the
posts they were produced from. -/
theorem process_posts_post_id (a : Analyzer) (posts : List Post) :
    (process_posts a posts).map (fun sc => sc.post_id) =
      posts.map (fun p => p.id) := by
  have hlen : posts.length ≤ (analyze_batch a (posts.map Post.text)).length := by
    simp [analyze_batch]
  calc (process_posts a posts).map (fun sc => sc.post_id)
      = ((posts.zip (analyze_batch a (posts.map Post.text))).map
          Prod.fst).map (fun p => p.id) := by
        simp [process_posts, Function.comp]
    _ = posts.map (fun p => p.id) := by
        rw [List.map_fst_zip _ _ hlen]

/-- A source that returns one post with the fixed id "dup". -/
def dup_source (nm : String) : Source :=
  { name := nm, enabled := true, search := fun _ => .ok [mk_post "dup" nm] }

/-- C5 counterexample: two providers each return a post with id "dup";
in the returned result both sentiment scores carry post id "dup", and that
id matches TWO posts of the same result's post slice — not exactly one. -/
theorem C5_post_id_matches_two_posts :
    (analyze_posts [("textblob", c4_analyzer)]
        [dup_source "twitter", dup_source "reddit"] { query := "q" }
        "textblob" 0).map
      (fun r => (r.sentiment_results.map (fun sc => sc.post_id),
        (r.posts.filter (fun p => p.id = "dup")).length, r.posts.length)) =
      .ok (["dup", "dup"], 2, 2) := by
  rfl

/-- C5 (amended): in every result returned by `analyze_posts` the
sentiment slice is empty when sentiment was not requested or when the
analyzer name did not resolve; when sentiment was requested and the name
resolved, the two slices have equal length and the i-th score's post id is
the i-th post's id (so every score's post id occurs among the result's
posts, though not necessarily uniquely). -/
theorem C5_slices_aligned (analyzers : List (String × Analyzer))
    (sources : List Source) (q : SearchQuery) (nm : String) (now : Int)
    (r : AnalysisResult)
    (h : analyze_posts analyzers sources q nm now = .ok r) :
    (q.include_sentiment = false → r.sentiment_results = []) ∧
    (analyzers.lookup nm = none → r.sentiment_results = []) ∧
    (q.include_sentiment = true → (analyzers.lookup nm).isSome = true →
      r.sentiment_results.length = r.posts.length ∧
      r.sentiment_results.map (fun sc => sc.post_id) =
        r.posts.map (fun p => p.id)) := by
  by_cases he : ((sources.filter fun s => s.enabled).isEmpty : Bool) = true
  · simp only [analyze_posts, he, if_true] at h
    exact absurd h (by simp)
  · rw [Bool.not_eq_true] at he
    simp only [analyze_posts, he, Bool.false_eq_true, if_false,
      Except.ok.injEq] at h
    subst h
    refine ⟨?_, ?_, ?_⟩
    · intro hs
      simp [hs]
    · intro hl
      simp [create_analyzer, hl]
    · intro hs hl
      obtain ⟨a, ha⟩ := Option.isSome_iff_exists.mp hl
      simp only [hs, if_true, create_analyzer, ha]
      exact ⟨process_posts_length a _, process_posts_post_id a _⟩

/-- A source that returns no posts. -/
def empty_source (nm : String) : Source :=
  { name := nm, enabled := true, search := fun _ => .ok [] }

/-- The result of the witness run for C5. -/
def c5w_result : AnalysisResult :=
  { query := "q"
    total_posts := 0
    sentiment_distribution := {}
    average_confidence := 0
    sources_used := ["twitter"]
    posts := []
    sentiment_results := []
    created_at := 0
    processing_time := 0 }

/-- C5 amended, witness: a concrete run with sentiment requested and a
resolving analyzer yields equally long slices. -/
theorem C5_slices_aligned_witness :
    (analyze_posts [("textblob", c4_analyzer)] [empty_source "twitter"]
        { query := "q" } "textblob" 0 = .ok c5w_result ∧
      ({ query := "q" } : SearchQuery).include_sentiment = true ∧
      (List.lookup "textblob" [("textblob", c4_analyzer)]).isSome = true) ∧
    c5w_result.sentiment_results.length = c5w_result.posts.length :=
  ⟨⟨rfl, rfl, rfl⟩,
    ((C5_slices_aligned [("textblob", c4_analyzer)] [empty_source "twitter"]
      { query := "q" } "textblob" 0 c5w_result rfl).2.2 rfl rfl).1⟩

/-! ## C7 — text normalization

The code collapses whitespace *first* and strips null characters *after*
(`" ".join(text.split())` and then `.replace("\x00", "")`).  A null byte
standing between whitespace therefore survives the collapse as a word of
its own and its removal leaves the two separator spaces adjacent: the
output can contain a double space, which the claim rules out. -/

/-- C7 counterexample: on the input `"a \x00 b"` the code returns
`"a  b"`, which contains two adjacent spaces; the operation order stated
by the claim would return `"a b"`. -/
theorem C7_double_space_from_null :
    normalize_text "a \x00 b" = "a  b" ∧
    occursIn [' ', ' '] (normalize_text "a \x00 b").toList = true ∧
    normalize_text_claimed "a \x00 b" = "a b" := by
  refine ⟨by decide, by decide, by decide⟩

/-- Adjacent characters are never both spaces. -/
def no_pair_space (a b : Char) : Prop := ¬(a = ' ' ∧ b = ' ')

/-- The words returned by the split helper are non-empty and contain no
whitespace, provided the accumulated word does not. -/
theorem py_split_aux_good : ∀ (cs acc : List Char),
    (∀ c ∈ acc, py_space c = false) →
    ∀ w ∈ py_split_aux cs acc, w ≠ [] ∧ ∀ c ∈ w, py_space c = false := by
  intro cs
  induction cs with
  | nil =>
    intro acc hacc w hw
    simp only [py_split_aux] at hw
    by_cases h : acc.isEmpty
    · simp [h] at hw
    · simp only [h, Bool.false_eq_true, if_false, List.mem_singleton] at hw
      subst hw
      refine ⟨?_, ?_⟩
      · simp only [ne_eq, List.reverse_eq_nil_iff]
        exact fun hnil => h (by simp [hnil])
      · intro c hc
        exact hacc c (List.mem_reverse.mp hc)
  | cons c cs ih =>
    intro acc hacc w hw
    simp only [py_split_aux] at hw
    by_cases hsp : py_space c = true
    · rw [if_pos hsp] at hw
      by_cases hemp : acc.isEmpty
      · rw [if_pos hemp] at hw
        exact ih [] (by simp) w hw
      · rw [if_neg hemp] at hw
        rcases List.mem_cons.mp hw with rfl | hw'
        · refine ⟨?_, ?_⟩
          · simp only [ne_eq, List.reverse_eq_nil_iff]
            exact fun hnil => hemp (by simp [hnil])
          · intro d hd
            exact hacc d (List.mem_reverse.mp hd)
        · exact ih [] (by simp) w hw'
    · rw [Bool.not_eq_true] at hsp
      rw [if_neg (by simp [hsp])] at hw
      refine ih (c :: acc) ?_ w hw
      intro d hd
      rcases List.mem_cons.mp hd with rfl | hd'
      · exact hsp
      · exact hacc d hd'

/-- Every character of a split word comes from the accumulator or from
the input. -/
theorem py_split_aux_mem : ∀ (cs acc w : List Char),
    w ∈ py_split_aux cs acc → ∀ c ∈ w, c ∈ acc ∨ c ∈ cs := by
  intro cs
  induction cs with
  | nil =>
    intro acc w hw c hc
    simp only [py_split_aux] at hw
    by_cases h : acc.isEmpty
    · simp [h] at hw
    · simp only [h, Bool.false_eq_true, if_false, List.mem_singleton] at hw
      subst hw
      exact Or.inl (List.mem_reverse.mp hc)
  | cons a cs ih =>
    intro acc w hw c hc
    simp only [py_split_aux] at hw
    by_cases hsp : py_space a = true
    · rw [if_pos hsp] at hw
      by_cases hemp : acc.isEmpty
      · rw [if_pos hemp] at hw
        rcases ih [] w hw c hc with h | h
        · simp at h
        · exact Or.inr (List.mem_cons_of_mem a h)
      · rw [if_neg hemp] at hw
        rcases List.mem_cons.mp hw with rfl | hw'
        · exact Or.inl (List.mem_reverse.mp hc)
        · rcases ih [] w hw' c hc with h | h
          · simp at h
          · exact Or.inr (List.mem_cons_of_mem a h)
    · rw [Bool.not_eq_true] at hsp
      rw [if_neg (by simp [hsp])] at hw
      rcases ih (a :: acc) w hw c hc with h | h
      · rcases List.mem_cons.mp h with rfl | h'
        · exact Or.inr (List.mem_cons_self _ _)
        · exact Or.inl h'
      · exact Or.inr (List.mem_cons_of_mem a h)

/-- Every character of the joined word list is a separator space or a
character of one of the words. -/
theorem join_space_mem : ∀ (ws : List (List Char)) (c : Char),
    c ∈ join_space ws → c = ' ' ∨ ∃ w ∈ ws, c ∈ w := by
  intro ws
  induction ws with
  | nil =>
    intro c hc
    simp [join_space] at hc
  | cons w ws ih =>
    intro c hc
    cases ws with
    | nil =>
      exact Or.inr ⟨w, List.mem_cons_self _ _, hc⟩
    | cons v vs =>
      rcases List.mem_append.mp hc with h | h
      · exact Or.inr ⟨w, List.mem_cons_self _ _, h⟩
      · rcases List.mem_cons.mp h with rfl | h'
        · exact Or.inl rfl
        · rcases ih c h' with h'' | ⟨u, hu, hcu⟩
          · exact Or.inl h''
          · exact Or.inr ⟨u, List.mem_cons_of_mem w hu, hcu⟩

/-- A list of non-space characters has no adjacent pair of spaces. -/
theorem chain'_of_nonspace : ∀ (w : List Char),
    (∀ c ∈ w, py_space c = false) → w.Chain' no_pair_space := by
  intro w
  induction w with
  | nil => intro _; exact List.chain'_nil
  | cons a w ih =>
    intro h
    cases w with
    | nil => exact List.chain'_singleton a
    | cons b w' =>
      rw [List.chain'_cons]
      refine ⟨?_, ih (fun c hc => h c (List.mem_cons_of_mem a hc))⟩
      intro ⟨ha, _⟩
      have := h a (List.mem_cons_self _ _)
      rw [ha] at this
      simp [py_space] at this

/-- The head of the joined list of non-empty words is the head of the
first word. -/
theorem join_space_head (v : List Char) (vs : List (List Char))
    (hv : v ≠ []) : (join_space (v :: vs)).head? = v.head? := by
  cases vs with
  | nil => rfl
  | cons u us =>
    cases v with
    | nil => exact absurd rfl hv
    | cons a t => rfl

/-- Joining non-empty, whitespace-free words with single spaces yields a
list with no two adjacent spaces. -/
theorem chain'_join_space : ∀ ws : List (List Char),
    (∀ w ∈ ws, w ≠ [] ∧ ∀ c ∈ w, py_space c = false) →
    (join_space ws).Chain' no_pair_space := by
  intro ws
  induction ws with
  | nil => intro _; exact List.chain'_nil
  | cons w ws ih =>
    intro h
    have hw := h w (List.mem_cons_self _ _)
    cases ws with
    | nil => exact chain'_of_nonspace w hw.2
    | cons v vs =>
      show (w ++ ' ' :: join_space (v :: vs)).Chain' no_pair_space
      have hv := h v (List.mem_cons_of_mem w (List.mem_cons_self _ _))
      rw [List.chain'_append]
      refine ⟨chain'_of_nonspace w hw.2, ?_, ?_⟩
      · rw [List.chain'_cons']
        refine ⟨?_, ih (fun u hu => h u (List.mem_cons_of_mem w hu))⟩
        intro y hy
        rw [join_space_head v vs hv.1] at hy
        intro ⟨_, hy'⟩
        have hmem : y ∈ v := by
          cases v with
          | nil => exact absurd rfl hv.1
          | cons a t =>
            simp only [List.head?_cons, Option.mem_def, Option.some.injEq] at hy
            subst hy
            exact List.mem_cons_self _ _
        have := hv.2 y hmem
        rw [hy'] at this
        simp [py_space] at this
      · intro x hx y hy
        simp only [List.head?_cons, Option.mem_def, Option.some.injEq] at hy
        subst hy
        intro ⟨hx', _⟩
        obtain ⟨hne, hxl⟩ := List.mem_getLast?_eq_getLast hx
        have hmem : x ∈ w := hxl ▸ List.getLast_mem hne
        have := hw.2 x hmem
        rw [hx'] at this
        simp [py_space] at this

/-- `dropWhile` preserves the no-adjacent-spaces property. -/
theorem chain'_dropWhile (p : Char → Bool) : ∀ l : List Char,
    l.Chain' no_pair_space → (l.dropWhile p).Chain' no_pair_space := by
  intro l
  induction l with
  | nil => intro _; exact List.chain'_nil
  | cons a l ih =>
    intro h
    rw [List.dropWhile_cons]
    by_cases hp : p a = true
    · rw [if_pos hp]
      exact ih h.tail
    · rw [if_neg hp]
      exact h

/-- `reverse` preserves the no-adjacent-spaces property. -/
theorem chain'_reverse_nps {l : List Char} (h : l.Chain' no_pair_space) :
    l.reverse.Chain' no_pair_space := by
  rw [List.chain'_reverse]
  refine h.imp ?_
  intro a b hab
  intro ⟨hb, ha⟩
  exact hab ⟨ha, hb⟩

/-- Stripping edge whitespace preserves the no-adjacent-spaces property. -/
theorem chain'_py_strip {l : List Char} (h : l.Chain' no_pair_space) :
    (py_strip l).Chain' no_pair_space :=
  chain'_reverse_nps (chain'_dropWhile _ _ (chain'_reverse_nps
    (chain'_dropWhile _ _ h)))

/-- A list with no adjacent pair of spaces has no occurrence of a double
space. -/
theorem no_double_space_of_chain' : ∀ l : List Char,
    l.Chain' no_pair_space → occursIn [' ', ' '] l = false := by
  intro l
  induction l with
  | nil => intro _; rfl
  | cons a l ih =>
    intro h
    show (leadsWith [' ', ' '] (a :: l) || occursIn [' ', ' '] l) = false
    rw [Bool.or_eq_false_iff]
    refine ⟨?_, ih h.tail⟩
    cases l with
    | nil => simp [leadsWith]
    | cons b l' =>
      have hab : no_pair_space a b := (List.chain'_cons.mp h).1
      simp only [leadsWith, Bool.and_eq_false_iff]
      by_cases ha : a = ' '
      · by_cases hb : b = ' '
        · exact absurd ⟨ha, hb⟩ hab
        · refine Or.inr (Or.inl ?_)
          simp only [decide_eq_false_iff_not]
          exact fun hh => hb hh.symm
      · refine Or.inl ?_
        simp only [decide_eq_false_iff_not]
        exact fun hh => ha hh.symm

/-- The first element surviving `dropWhile` fails the predicate. -/
theorem head?_dropWhile_not {α : Type} (p : α → Bool) :
    ∀ (l : List α) {c : α}, (l.dropWhile p).head? = some c → p c = false := by
  intro l
  induction l with
  | nil => intro c h; cases h
  | cons a l ih =>
    intro c h
    rw [List.dropWhile_cons] at h
    by_cases hp : p a = true
    · rw [if_pos hp] at h
      exact ih h
    · rw [if_neg hp] at h
      injection h with h
      subst h
      exact Bool.not_eq_true _ |>.mp hp

/-- `dropWhile` removes an initial segment. -/
theorem dropWhile_suffix_ex {α : Type} (p : α → Bool) :
    ∀ l : List α, ∃ t, t ++ l.dropWhile p = l := by
  intro l
  induction l with
  | nil => exact ⟨[], rfl⟩
  | cons a l ih =>
    by_cases hp : p a = true
    · obtain ⟨t, ht⟩ := ih
      exact ⟨a :: t, by simp [List.dropWhile_cons, hp, ht]⟩
    · exact ⟨[], by simp [List.dropWhile_cons, hp]⟩

/-- Right-trimming keeps the head (when anything is left). -/
theorem rtrim_head {α : Type} (p : α → Bool) (y : List α) {c : α}
    (h : ((y.reverse.dropWhile p).reverse).head? = some c) :
    y.head? = some c := by
  obtain ⟨t, ht⟩ := dropWhile_suffix_ex p y.reverse
  have hy : (y.reverse.dropWhile p).reverse ++ t.reverse = y := by
    have := congrArg List.reverse ht
    simpa [List.reverse_append] using this
  rcases hz : (y.reverse.dropWhile p).reverse with _ | ⟨a, w⟩
  · rw [hz] at h
    cases h
  · rw [hz] at h
    injection h with h
    subst h
    rw [← hy, hz]
    rfl

/-- The stripped text does not start with whitespace. -/
theorem py_strip_head {l : List Char} {c : Char}
    (h : (py_strip l).head? = some c) : py_space c = false :=
  head?_dropWhile_not py_space l (rtrim_head py_space (l.dropWhile py_space) h)

/-- The stripped text does not end with whitespace. -/
theorem py_strip_last {l : List Char} {c : Char}
    (h : (py_strip l).getLast? = some c) : py_space c = false := by
  unfold py_strip at h
  rw [List.getLast?_reverse] at h
  exact head?_dropWhile_not py_space _ h

/-- Stripping only removes characters. -/
theorem py_strip_mem {c : Char} {l : List Char} (h : c ∈ py_strip l) :
    c ∈ l := by
  unfold py_strip at h
  have h1 := List.mem_reverse.mp h
  have h2 := List.Sublist.mem h1 (List.dropWhile_sublist _)
  have h3 := List.mem_reverse.mp h2
  exact List.Sublist.mem h3 (List.dropWhile_sublist _)

/-- Replacing CR/LF by spaces does not change which characters count as
whitespace. -/
theorem py_space_crnl (c : Char) : py_space (crnl c) = py_space c := by
  unfold crnl
  by_cases h : c = '\r' ∨ c = '\n'
  · rw [if_pos h]
    rcases h with h | h <;> subst h <;> decide
  · rw [if_neg h]

/-- `crnl` fixes every non-whitespace character. -/
theorem crnl_eq_self {c : Char} (h : py_space c = false) : crnl c = c := by
  unfold crnl
  rw [if_neg]
  intro hc
  rcases hc with hc | hc <;> subst hc <;> simp [py_space] at h

/-- Splitting is insensitive to the CR/LF-to-space replacement. -/
theorem py_split_aux_map_crnl : ∀ (cs acc : List Char),
    py_split_aux (cs.map crnl) acc = py_split_aux cs acc := by
  intro cs
  induction cs with
  | nil => intro acc; rfl
  | cons c cs ih =>
    intro acc
    show py_split_aux (crnl c :: cs.map crnl) acc = _
    simp only [py_split_aux, py_space_crnl]
    by_cases hsp : py_space c = true
    · rw [if_pos hsp, if_pos hsp]
      by_cases hemp : acc.isEmpty
      · rw [if_pos hemp, if_pos hemp, ih]
      · rw [if_neg hemp, if_neg hemp, ih]
    · rw [if_neg hsp, if_neg hsp]
      rw [Bool.not_eq_true] at hsp
      rw [crnl_eq_self hsp, ih]

/-- C7 (amended): `_normalize_text` collapses whitespace runs *first* and
strips null characters *after*.  For every input the output contains no
null, CR or LF character and neither starts nor ends with whitespace; and
whenever the input contains no null character the output contains no two
adjacent spaces and agrees with the order of operations the claim states.
When a null character stands between whitespace, however, its late removal
can leave two adjacent spaces (see the counterexample). -/
theorem C7_normalize_text_code_order (s : String) :
    (∀ c ∈ (normalize_text s).toList,
      c ≠ '\x00' ∧ c ≠ '\r' ∧ c ≠ '\n') ∧
    (∀ c, (normalize_text s).toList.head? = some c → py_space c = false) ∧
    (∀ c, (normalize_text s).toList.getLast? = some c → py_space c = false) ∧
    ((∀ c ∈ s.toList, c ≠ '\x00') →
      occursIn [' ', ' '] (normalize_text s).toList = false ∧
      normalize_text s = normalize_text_claimed s) := by
  have htl : (normalize_text s).toList =
      py_strip (((join_space (py_split s.toList)).filter
        (fun c => c ≠ '\x00')).map crnl) := rfl
  refine ⟨?_, ?_, ?_, ?_⟩
  · intro c hc
    rw [htl] at hc
    have hc₁ := py_strip_mem hc
    obtain ⟨d, hd, hdc⟩ := List.mem_map.mp hc₁
    have hd₁ := List.mem_filter.mp hd
    have hdnull : d ≠ '\x00' := by simpa using hd₁.2
    subst hdc
    unfold crnl
    by_cases h : d = '\r' ∨ d = '\n'
    · rw [if_pos h]
      refine ⟨by decide, by decide, by decide⟩
    · rw [if_neg h]
      push_neg at h
      exact ⟨hdnull, h.1, h.2⟩
  · intro c hc
    rw [htl] at hc
    exact py_strip_head hc
  · intro c hc
    rw [htl] at hc
    exact py_strip_last hc
  · intro hnf
    have hgood := py_split_aux_good s.toList [] (by simp)
    have hchain : (join_space (py_split s.toList)).Chain' no_pair_space :=
      chain'_join_space _ hgood
    have hmem : ∀ c ∈ join_space (py_split s.toList),
        c = ' ' ∨ py_space c = false := by
      intro c hc
      rcases join_space_mem _ c hc with h | ⟨w, hw, hcw⟩
      · exact Or.inl h
      · exact Or.inr ((hgood w hw).2 c hcw)
    have hnonull : ∀ c ∈ join_space (py_split s.toList), c ≠ '\x00' := by
      intro c hc
      rcases join_space_mem _ c hc with h | ⟨w, hw, hcw⟩
      · subst h; decide
      · rcases py_split_aux_mem s.toList [] w hw c hcw with h | h
        · simp at h
        · exact hnf c h
    have hfil : (join_space (py_split s.toList)).filter
        (fun c => c ≠ '\x00') = join_space (py_split s.toList) := by
      rw [List.filter_eq_self]
      intro c hc
      simpa using hnonull c hc
    have hmap : ((join_space (py_split s.toList)).filter
        (fun c => c ≠ '\x00')).map crnl = join_space (py_split s.toList) := by
      rw [hfil]
      have : ∀ c ∈ join_space (py_split s.toList), crnl c = id c := by
        intro c hc
        rcases hmem c hc with h | h
        · subst h; decide
        · exact crnl_eq_self h
      rw [List.map_congr_left this, List.map_id]
    constructor
    · rw [htl, hmap]
      exact no_double_space_of_chain' _ (chain'_py_strip hchain)
    · show String.mk (py_strip (((join_space (py_split s.toList)).filter
          (fun c => c ≠ '\x00')).map crnl)) = _
      rw [hmap]
      show _ = String.mk (py_strip (join_space (py_split
        ((s.toList.map crnl).filter (fun c => c ≠ '\x00')))))
      have hfil₂ : (s.toList.map crnl).filter (fun c => c ≠ '\x00') =
          s.toList.map crnl := by
        rw [List.filter_eq_self]
        intro c hc
        obtain ⟨d, hd, hdc⟩ := List.mem_map.mp hc
        subst hdc
        have hdnull := hnf d hd
        unfold crnl
        by_cases h : d = '\r' ∨ d = '\n'
        · rw [if_pos h]; decide
        · rw [if_neg h]; simpa using hdnull
      rw [hfil₂]
      unfold py_split
      rw [py_split_aux_map_crnl]

/-- C7 amended, witness: on a null-free input with CR, LF, tabs and runs
of blanks, the normalized output has no double space and agrees with the
claim's order of operations. -/
theorem C7_normalize_text_code_order_witness :
    (∀ c ∈ (" Hello\r\n\t  world ").toList, c ≠ '\x00') ∧
    (occursIn [' ', ' '] (normalize_text " Hello\r\n\t  world ").toList = false ∧
      normalize_text " Hello\r\n\t  world " =
        normalize_text_claimed " Hello\r\n\t  world ") :=
  ⟨by decide,
    (C7_normalize_text_code_order " Hello\r\n\t  world ").2.2.2 (by decide)⟩

/-! ## C8 — cache round-trip and expiry -/

/-- Looking up a freshly stored key returns the stored value. -/
theorem assoc_get_set_self {κ ν : Type} [DecidableEq κ] :
    ∀ (m : List (κ × ν)) (k : κ) (v : ν),
      assoc_get (assoc_set m k v) k = some v := by
  intro m k v
  induction m with
  | nil => simp [assoc_set, assoc_get]
  | cons kv rest ih =>
    by_cases h : kv.1 = k
    · simp [assoc_set, h, assoc_get]
    · simp [assoc_set, h, assoc_get, ih]

/-- Looking up a deleted key returns nothing. -/
theorem assoc_get_del_self {κ ν : Type} [DecidableEq κ]
    (m : List (κ × ν)) (k : κ) : assoc_get (assoc_del m k) k = none := by
  induction m with
  | nil => rfl
  | cons kv rest ih =>
    by_cases h : kv.1 = k
    · simpa [assoc_del, List.filter_cons, h] using ih
    · simpa [assoc_del, List.filter_cons, h, assoc_get] using ih

/-- A fixed query and stored result for the cache runs. -/
def c8_query : SearchQuery := { query := "c" }

/-- A fixed stored result for the cache runs. -/
def c8_result : AnalysisResult :=
  { query := "c"
    total_posts := 0
    sentiment_distribution := {}
    average_confidence := 0
    sources_used := []
    posts := []
    sentiment_results := []
    created_at := 0
    processing_time := 0 }

/-- C8 counterexample: with an explicit TTL of 0 the claim says the entry
is expired from the moment of the set, but `ttl or self.default_ttl`
treats 0 as falsy and substitutes the default 3600: a get at the set time
— and still at 3000 seconds later — returns the result instead of
treating the entry as absent. -/
theorem C8_zero_ttl_replaced_by_default :
    (cache_get (cache_set {} 100 c8_query c8_result (some 0)) 100 c8_query).1 =
      some c8_result ∧
    (cache_get (cache_set {} 100 c8_query c8_result (some 0)) 3000 c8_query).1 =
      some c8_result := by
  constructor <;>
    simp [cache_get, cache_set, effective_ttl, assoc_get_set_self]

/-- C8 (amended): when the effective TTL is positive — the explicit TTL
when nonzero (an explicit 0 is falsy in `ttl or default` and replaced by
the configured default; a negative TTL yields an entry born expired), the
default when none is given — `set` followed by an immediate `get` returns
the stored result and observably sets the entry's hit counter to 1 and its
last-access time to the get time; once the effective TTL has elapsed since
the set, `get` returns absent and evicts the entry; and no `get` ever
returns a logically expired entry. -/
theorem C8_cache_roundtrip_and_expiry
    (st : CacheState) (now : Int) (q : SearchQuery) (r : AnalysisResult)
    (ttl : Option Int) (hpos : 0 < effective_ttl st.default_ttl ttl) :
    (cache_get (cache_set st now q r ttl) now q).1 = some r ∧
    (assoc_get (cache_get (cache_set st now q r ttl) now q).2.cache
        (generate_key q)).map
      (fun e => (e.data, e.hit_count, e.last_accessed)) = some (r, 1, now) ∧
    (∀ t : Int, now + effective_ttl st.default_ttl ttl ≤ t →
      (cache_get (cache_set st now q r ttl) t q).1 = none ∧
      assoc_get (cache_get (cache_set st now q r ttl) t q).2.cache
        (generate_key q) = none) ∧
    (∀ (st' : CacheState) (t : Int) (res : AnalysisResult),
      (cache_get st' t q).1 = some res →
      ∃ e, assoc_get st'.cache (generate_key q) = some e ∧ e.data = res ∧
        t < e.expires_at) := by
  have hget : assoc_get (cache_set st now q r ttl).cache (generate_key q) =
      some { data := r, created_at := now,
             expires_at := now + effective_ttl st.default_ttl ttl,
             hit_count := 0, last_accessed := now } := by
    simp [cache_set, assoc_get_set_self]
  have hlt : now < now + effective_ttl st.default_ttl ttl := by omega
  refine ⟨?_, ?_, ?_, ?_⟩
  · simp [cache_get, hget, hlt]
  · simp [cache_get, hget, hlt, assoc_get_set_self]
  · intro t ht
    have hnlt : ¬ t < now + effective_ttl st.default_ttl ttl := by omega
    constructor
    · simp [cache_get, hget, hnlt]
    · simp [cache_get, hget, hnlt, assoc_get_del_self]
  · intro st' t res h
    rcases hm : assoc_get st'.cache (generate_key q) with _ | e
    · simp [cache_get, hm] at h
    · by_cases hlt' : t < e.expires_at
      · simp only [cache_get, hm, hlt', if_true] at h
        injection h with h
        exact ⟨e, rfl, h, hlt'⟩
      · simp [cache_get, hm, hlt'] at h

/-- C8 amended, witness: default TTL 3600 (positive); the round-trip,
the hit-counter bump and the expiry at time 5000 evaluated concretely. -/
theorem C8_cache_roundtrip_and_expiry_witness :
    0 < effective_ttl ({} : CacheState).default_ttl none ∧
    (cache_get (cache_set {} 0 c8_query c8_result none) 0 c8_query).1 =
      some c8_result ∧
    ((0 : Int) + effective_ttl ({} : CacheState).default_ttl none ≤ 5000 ∧
      (cache_get (cache_set {} 0 c8_query c8_result none) 5000 c8_query).1 =
        none) :=
  ⟨by decide,
   (C8_cache_roundtrip_and_expiry {} 0 c8_query c8_result none (by decide)).1,
   by decide,
   ((C8_cache_roundtrip_and_expiry {} 0 c8_query c8_result none
      (by decide)).2.2.1 5000 (by decide)).1⟩

/-! ## C10 — registry invariant -/

/-- Entries after a store are the stored pair or old entries. -/
theorem assoc_set_mem {κ ν : Type} [DecidableEq κ] :
    ∀ (m : List (κ × ν)) (k : κ) (v : ν) (kv : κ × ν),
      kv ∈ assoc_set m k v → kv = (k, v) ∨ kv ∈ m := by
  intro m k v
  induction m with
  | nil =>
    intro kv hkv
    simp [assoc_set] at hkv
    exact Or.inl hkv
  | cons hd rest ih =>
    intro kv hkv
    by_cases h : hd.1 = k
    · rw [assoc_set, if_pos h] at hkv
      rcases List.mem_cons.mp hkv with rfl | h'
      · exact Or.inl rfl
      · exact Or.inr (List.mem_cons_of_mem hd h')
    · rw [assoc_set, if_neg h] at hkv
      rcases List.mem_cons.mp hkv with rfl | h'
      · exact Or.inr (List.mem_cons_self _ _)
      · rcases ih kv h' with h'' | h''
        · exact Or.inl h''
        · exact Or.inr (List.mem_cons_of_mem hd h'')

/-- Keys after a store are the stored key or old keys. -/
theorem assoc_set_keys {κ ν : Type} [DecidableEq κ]
    (m : List (κ × ν)) (k : κ) (v : ν) (k' : κ)
    (h : k' ∈ (assoc_set m k v).map Prod.fst) :
    k' = k ∨ k' ∈ m.map Prod.fst := by
  obtain ⟨kv, hkv, hk⟩ := List.mem_map.mp h
  rcases assoc_set_mem m k v kv hkv with rfl | h'
  · exact Or.inl hk.symm
  · exact Or.inr (hk ▸ List.mem_map_of_mem Prod.fst h')

/-- A store keeps the keys pairwise distinct. -/
theorem assoc_set_nodup {κ ν : Type} [DecidableEq κ] :
    ∀ (m : List (κ × ν)) (k : κ) (v : ν),
      (m.map Prod.fst).Nodup → ((assoc_set m k v).map Prod.fst).Nodup := by
  intro m k v
  induction m with
  | nil =>
    intro _
    simp [assoc_set]
  | cons hd rest ih =>
    intro hnd
    rw [List.map_cons, List.nodup_cons] at hnd
    by_cases h : hd.1 = k
    · rw [assoc_set, if_pos h]
      rw [List.map_cons, List.nodup_cons]
      exact ⟨h ▸ hnd.1, hnd.2⟩
    · rw [assoc_set, if_neg h]
      rw [List.map_cons, List.nodup_cons]
      refine ⟨?_, ih hnd.2⟩
      intro hmem
      rcases assoc_set_keys rest k v hd.1 hmem with h' | h'
      · exact h h'
      · exact hnd.1 h'

/-- Plugin loading at construction touches only the available types. -/
theorem initial_manager_data_sources (plugin_types : List String) :
    (initial_manager plugin_types).data_sources = [] := by
  unfold initial_manager
  suffices h : ∀ (pts : List String) (st : ManagerState),
      (pts.foldl (fun st name =>
        { st with available_sources :=
            if st.available_sources.contains name then st.available_sources
            else st.available_sources ++ [name] }) st).data_sources =
        st.data_sources by
    rw [h]
  intro pts
  induction pts with
  | nil => intro st; rfl
  | cons p ps ih => intro st; rw [List.foldl_cons, ih]

/-- `add_data_source` preserves the invariant. -/
theorem manager_inv_add (avail : String → DataSourceConfig → Bool)
    (st : ManagerState) (config : DataSourceConfig)
    (hinv : manager_inv st) : manager_inv (add_data_source avail st config).1 := by
  obtain ⟨hsub, hnd⟩ := hinv
  unfold add_data_source
  by_cases hc : st.available_sources.contains config.name = true
  · by_cases ha : avail config.name config = true
    · rw [if_pos hc, if_pos ha]
      refine ⟨?_, assoc_set_nodup _ _ _ hnd⟩
      intro kv hkv
      rcases assoc_set_mem _ _ _ kv hkv with rfl | h'
      · simpa using hc
      · exact hsub kv h'
    · rw [if_pos hc, if_neg ha]
      exact ⟨hsub, hnd⟩
  · rw [if_neg hc]
    exact ⟨hsub, hnd⟩

/-- `remove_data_source` preserves the invariant. -/
theorem manager_inv_remove (st : ManagerState) (name : String)
    (hinv : manager_inv st) : manager_inv (remove_data_source st name).1 := by
  obtain ⟨hsub, hnd⟩ := hinv
  unfold remove_data_source
  by_cases hp : (assoc_get st.data_sources name).isSome = true
  · rw [if_pos hp]
    refine ⟨?_, ?_⟩
    · intro kv hkv
      exact hsub kv (List.mem_of_mem_filter hkv)
    · exact List.Nodup.sublist
        (List.Sublist.map Prod.fst (List.filter_sublist _)) hnd
  · rw [if_neg hp]
    exact ⟨hsub, hnd⟩

/-- One registry operation preserves the invariant. -/
theorem manager_inv_step {st st' : ManagerState}
    (h : ManagerStep st st') (hinv : manager_inv st) : manager_inv st' := by
  cases h with
  | register st name =>
    obtain ⟨hsub, hnd⟩ := hinv
    refine ⟨?_, hnd⟩
    intro kv hkv
    show kv.1 ∈ (register_data_source st name).available_sources
    unfold register_data_source
    by_cases hc : st.available_sources.contains name = true
    · simp only [hc, if_true]
      exact hsub kv hkv
    · simp only [hc, Bool.false_eq_true, if_false]
      exact List.mem_append_left _ (hsub kv hkv)
  | add avail st config => exact manager_inv_add avail st config hinv
  | remove st name => exact manager_inv_remove st name hinv
  | update avail st name config =>
    unfold update_source_config
    by_cases hp : (assoc_get st.data_sources name).isSome = true
    · rw [if_pos hp]
      exact manager_inv_add avail _ config (manager_inv_remove st name hinv)
    · rw [if_neg hp]
      exact hinv

/-- C10: `add_data_source` succeeds only when `config.name` is itself an
available type name, and on success stores the instance under that same
name; and over every sequence of add/remove/update/register operations
from construction, every configured-instance name is an available type
name and the configured names are pairwise distinct (at most one instance
per name). -/
theorem C10_registry_conflates_type_and_instance_names :
    (∀ (avail : String → DataSourceConfig → Bool) (st : ManagerState)
        (config : DataSourceConfig),
      (add_data_source avail st config).2 = true →
      st.available_sources.contains config.name = true ∧
      assoc_get (add_data_source avail st config).1.data_sources
        config.name = some config) ∧
    (∀ st : ManagerState, ManagerReachable st → manager_inv st) := by
  constructor
  · intro avail st config h
    unfold add_data_source at h ⊢
    by_cases hc : st.available_sources.contains config.name = true
    · rw [if_pos hc] at h ⊢
      by_cases ha : avail config.name config = true
      · rw [if_pos ha]
        exact ⟨hc, assoc_get_set_self _ _ _⟩
      · rw [if_neg ha] at h
        exact absurd h (by simp)
    · rw [if_neg hc] at h
      exact absurd h (by simp)
  · intro st h
    induction h with
    | init plugin_types =>
      refine ⟨?_, ?_⟩
      · intro kv hkv
        rw [initial_manager_data_sources] at hkv
        cases hkv
      · rw [initial_manager_data_sources]
        exact List.nodup_nil
    | step _ hstep ih => exact manager_inv_step hstep ih

/-- C10 witness: adding a twitter instance to a freshly constructed
registry succeeds, stores it under "twitter", and the reachable state
satisfies the invariant. -/
theorem C10_registry_conflates_type_and_instance_names_witness :
    ((add_data_source (fun _ _ => true) (initial_manager [])
        { name := "twitter" }).2 = true ∧
      (initial_manager []).available_sources.contains "twitter" = true ∧
      assoc_get (add_data_source (fun _ _ => true) (initial_manager [])
        { name := "twitter" }).1.data_sources "twitter" =
          some { name := "twitter" }) ∧
    (ManagerReachable (add_data_source (fun _ _ => true) (initial_manager [])
        { name := "twitter" }).1 ∧
      manager_inv (add_data_source (fun _ _ => true) (initial_manager [])
        { name := "twitter" }).1) :=
  ⟨⟨rfl,
    (C10_registry_conflates_type_and_instance_names.1 (fun _ _ => true)
      (initial_manager []) { name := "twitter" } rfl).1,
    (C10_registry_conflates_type_and_instance_names.1 (fun _ _ => true)
      (initial_manager []) { name := "twitter" } rfl).2⟩,
   ManagerReachable.step (ManagerReachable.init [])
     (ManagerStep.add (fun _ _ => true) (initial_manager [])
       { name := "twitter" }),
   C10_registry_conflates_type_and_instance_names.2 _
     (ManagerReachable.step (ManagerReachable.init [])
       (ManagerStep.add (fun _ _ => true) (initial_manager [])
         { name := "twitter" }))⟩

end Interestify
